import Mathlib

/-!
Shallow embedding of `src/nfqueue-mnl.h` (nfqueue-mnl): the netlink
attribute (TLV) parser callbacks, the packet assembler `nfqueue_parse`,
the receive-buffer iterator `nfqueue_next`, and the outbound command
encoders (`nfqueue_send_command`, `nfqueue_set_params`,
`nfqueue_send_verdict_connmark`).

Modelling conventions:
- Machine integers are `Nat` (or `Int` where the C type is signed),
  with explicit `% 2^w` where truncation matters.
- Inbound netlink messages are modelled at message granularity: a
  buffer is the list of messages at and after the cursor, plus the
  remaining byte length (`int len` in C), exactly the two pieces of
  state `struct nf_buffer` carries across `nfqueue_next` calls.
- Attribute payloads are either raw bytes or an explicit list of nested
  attributes.  This mirrors the wire layout of well-formed kernel
  messages, where a nested attribute's payload is a sequence of
  attributes.  `mnl_attr_parse_nested` applied to a raw-byte payload
  would reinterpret those bytes as attribute headers; that
  reinterpretation is outside this model, and the model maps a
  non-empty raw payload in a nested position to a parse error (an empty
  one parses as zero attributes, as in C).
- The composite of `memcpy` into a host integer followed by
  `ntohl`/`ntohs`/`__be64_to_cpu` is a big-endian read of the payload
  bytes, on either host endianness; it is modelled as `getU32BE` etc.
- `clock_gettime` readings are opaque inputs `wall`/`mono : Nat` passed
  to `nfqueue_parse`.
- `mnl_attr_get_payload` never returns NULL (it is pointer arithmetic
  on the attribute header), so the C null checks on it are dead and the
  model reads payloads totally.
-/

namespace Nfq

/-! ## Protocol constants (linux/netlink.h, linux/netfilter headers) -/

def NLMSG_MIN_TYPE : Nat := 0x10
def NLM_F_DUMP_INTR : Nat := 0x10
def NLM_F_REQUEST : Nat := 1
def NLA_TYPE_MASK : Nat := 0x3FFF
def AF_UNSPEC : Nat := 0
def AF_INET : Nat := 2
def AF_INET6 : Nat := 10
def IPV4 : Nat := 4
def IPV6 : Nat := 6

def NFNL_SUBSYS_QUEUE : Nat := 3
def NFQNL_MSG_PACKET : Nat := 0
def NFQNL_MSG_VERDICT : Nat := 1
def NFQNL_MSG_CONFIG : Nat := 2

def NFQA_PACKET_HDR : Nat := 1
def NFQA_VERDICT_HDR : Nat := 2
def NFQA_MARK : Nat := 3
def NFQA_TIMESTAMP : Nat := 4
def NFQA_IFINDEX_INDEV : Nat := 5
def NFQA_IFINDEX_OUTDEV : Nat := 6
def NFQA_IFINDEX_PHYSINDEV : Nat := 7
def NFQA_IFINDEX_PHYSOUTDEV : Nat := 8
def NFQA_HWADDR : Nat := 9
def NFQA_PAYLOAD : Nat := 10
def NFQA_CT : Nat := 11
def NFQA_CT_INFO : Nat := 12
def NFQA_CAP_LEN : Nat := 13
def NFQA_SKB_INFO : Nat := 14
def NFQA_EXP : Nat := 15
def NFQA_UID : Nat := 16
def NFQA_GID : Nat := 17
def NFQA_SECCTX : Nat := 18
def NFQA_MAX : Nat := 20

def NFQA_CFG_CMD : Nat := 1
def NFQA_CFG_PARAMS : Nat := 2
def NFQA_CFG_QUEUE_MAXLEN : Nat := 3
def NFQA_CFG_MASK : Nat := 4
def NFQA_CFG_FLAGS : Nat := 5

def CTA_TUPLE_ORIG : Nat := 1
def CTA_TUPLE_REPLY : Nat := 2
def CTA_STATUS : Nat := 3
def CTA_TIMEOUT : Nat := 7
def CTA_MARK : Nat := 8
def CTA_COUNTERS_ORIG : Nat := 9
def CTA_COUNTERS_REPLY : Nat := 10
def CTA_ID : Nat := 12
def CTA_SECMARK : Nat := 17
def CTA_MAX : Nat := 23

def CTA_TUPLE_IP : Nat := 1
def CTA_TUPLE_PROTO : Nat := 2
def CTA_TUPLE_MAX : Nat := 3

def CTA_IP_V4_SRC : Nat := 1
def CTA_IP_V4_DST : Nat := 2
def CTA_IP_V6_SRC : Nat := 3
def CTA_IP_V6_DST : Nat := 4
def CTA_IP_MAX : Nat := 4

def CTA_PROTO_NUM : Nat := 1
def CTA_PROTO_SRC_PORT : Nat := 2
def CTA_PROTO_DST_PORT : Nat := 3
def CTA_PROTO_ICMP_ID : Nat := 4
def CTA_PROTO_ICMP_TYPE : Nat := 5
def CTA_PROTO_ICMP_CODE : Nat := 6
def CTA_PROTO_MAX : Nat := 9

/-- MNL_ALIGN: round up to a multiple of 4 (MNL_ALIGNTO). -/
def MNL_ALIGN (n : Nat) : Nat := (n + 3) / 4 * 4

/-! ## Byte-span reads

`memcpy` into a host integer followed by a network-to-host conversion
is a big-endian read of the span; so is `__be64_to_cpu` of a raw
`__be64` field. -/

/-- Big-endian fold of a byte list. -/
def beRead (bs : List Nat) : Nat := bs.foldl (fun acc b => acc * 256 + b) 0

/-- fixed_attr_get_u32 composed with ntohl: big-endian read of 4 bytes. -/
def getU32BE (bs : List Nat) : Nat := beRead (bs.take 4)

/-- fixed_attr_get_u16 composed with ntohs: big-endian read of 2 bytes. -/
def getU16BE (bs : List Nat) : Nat := beRead (bs.take 2)

/-- A be64 field read with __be64_to_cpu: big-endian read of 8 bytes. -/
def getU64BE (bs : List Nat) : Nat := beRead (bs.take 8)

/-- htonl: the 4 wire bytes of a 32-bit value, most significant first. -/
def be32Bytes (n : Nat) : List Nat :=
  [n / 2 ^ 24 % 256, n / 2 ^ 16 % 256, n / 2 ^ 8 % 256, n % 256]

/-! ## Inbound attributes (struct nlattr) -/

mutual

/-- Payload of an inbound attribute: raw bytes, or (for attributes that
the kernel writes as attribute sequences) an explicit nested list. -/
inductive AttrPayload : Type where
  | bytes (bs : List Nat) : AttrPayload
  | nested (inner : List Attr) : AttrPayload

/-- One inbound attribute: the wire `nla_type` field (may include the
NLA_F_NESTED / NLA_F_NET_BYTEORDER flag bits), the payload length that
the wire `nla_len` field declares (`mnl_attr_get_payload_len`), and the
payload. -/
inductive Attr : Type where
  | mk (ty : Nat) (plen : Nat) (pay : AttrPayload) : Attr

end

def Attr.ty : Attr → Nat
  | .mk t _ _ => t

def Attr.plen : Attr → Nat
  | .mk _ l _ => l

def Attr.pay : Attr → AttrPayload
  | .mk _ _ p => p

/-- Payload bytes of an attribute, as read by the integer/byte-copy
accessors.  Reading raw bytes out of a structurally-nested payload is
not modelled (never reached on the inputs considered). -/
def Attr.bytesOf : Attr → List Nat
  | .mk _ _ (.bytes bs) => bs
  | .mk _ _ (.nested _) => []

/-- The attribute sequence that `mnl_attr_parse_nested` walks inside
this attribute's payload.  An empty raw payload walks zero attributes
(as in C); a non-empty raw payload in a nested position is outside the
model and maps to `none` (parse error). -/
def Attr.nestedOf : Attr → Option (List Attr)
  | .mk _ _ (.nested inner) => some inner
  | .mk _ _ (.bytes bs) => if bs.isEmpty then some [] else none

/-! ## Attribute tables (the `struct nlattr* tb[MAX+1]` arrays)

Modelled as an association list: `tbSet` prepends, `tbGet` returns the
most recent binding, matching the last-wins array write `tb[type] = attr`. -/

def Tb : Type := List (Nat × Attr)

def tbEmpty : Tb := []

def tbSet (tb : Tb) (ty : Nat) (a : Attr) : Tb := (ty, a) :: tb

def tbGet : Tb → Nat → Option Attr
  | [], _ => none
  | (t, a) :: rest, ty => if t = ty then some a else tbGet rest ty

/-- mnl_attr_parse / mnl_attr_parse_nested driver: run the per-attribute
callback over the attribute sequence, threading the table; a callback
failure (MNL_CB_ERROR) aborts the whole walk. -/
def runCb (cb : Attr → Tb → Option Tb) : List Attr → Tb → Option Tb
  | [], tb => some tb
  | a :: rest, tb =>
    match cb a tb with
    | none => none
    | some tb2 => runCb cb rest tb2

/-- mnl_attr_get_type: mask off the NLA_F_NESTED/NLA_F_NET_BYTEORDER bits. -/
def attrType (a : Attr) : Nat := a.ty &&& NLA_TYPE_MASK

/-- mnl_attr_validate(attr, MNL_TYPE_U32): payload length exactly 4. -/
def validU32 (a : Attr) : Prop := a.plen = 4

/-- mnl_attr_validate(attr, MNL_TYPE_U16): payload length exactly 2. -/
def validU16 (a : Attr) : Prop := a.plen = 2

/-- mnl_attr_validate(attr, MNL_TYPE_U8): payload length exactly 1. -/
def validU8 (a : Attr) : Prop := a.plen = 1

/-- mnl_attr_validate(attr, MNL_TYPE_NESTED): empty, or at least one
attribute header (MNL_ATTR_HDRLEN = 4). -/
def validNested (a : Attr) : Prop := a.plen = 0 ∨ 4 ≤ a.plen

/-- mnl_attr_validate2(attr, ty, n) for MNL_TYPE_UNSPEC / MNL_TYPE_BINARY
with a non-zero expected length: payload length exactly n. -/
def validExact (a : Attr) (n : Nat) : Prop := a.plen = n

instance (a : Attr) : Decidable (validU32 a) := by unfold validU32; infer_instance
instance (a : Attr) : Decidable (validU16 a) := by unfold validU16; infer_instance
instance (a : Attr) : Decidable (validU8 a) := by unfold validU8; infer_instance
instance (a : Attr) : Decidable (validNested a) := by unfold validNested; infer_instance
instance (a : Attr) (n : Nat) : Decidable (validExact a n) := by unfold validExact; infer_instance

/-! ## The five parse callbacks (src/nfqueue-mnl.h lines 385-547) -/

/-- parse_nfqa_attr_cb: top-level NFQA attribute callback. -/
def parse_nfqa_attr_cb (a : Attr) (tb : Tb) : Option Tb :=
  let ty := attrType a
  if NFQA_MAX < ty then some tb
  else if ty = NFQA_MARK ∨ ty = NFQA_IFINDEX_INDEV ∨ ty = NFQA_IFINDEX_OUTDEV ∨
          ty = NFQA_IFINDEX_PHYSINDEV ∨ ty = NFQA_IFINDEX_PHYSOUTDEV ∨
          ty = NFQA_CAP_LEN ∨ ty = NFQA_SKB_INFO ∨ ty = NFQA_SECCTX ∨
          ty = NFQA_UID ∨ ty = NFQA_GID ∨ ty = NFQA_CT_INFO then
    if validU32 a then some (tbSet tb ty a) else none
  else if ty = NFQA_TIMESTAMP then
    if validExact a 16 then some (tbSet tb ty a) else none
  else if ty = NFQA_HWADDR then
    if validExact a 12 then some (tbSet tb ty a) else none
  else if ty = NFQA_PACKET_HDR then
    if validExact a 7 then some (tbSet tb ty a) else none
  else some (tbSet tb ty a)

/-- parse_cta_attr_cb: conntrack (CTA) attribute callback. -/
def parse_cta_attr_cb (a : Attr) (tb : Tb) : Option Tb :=
  let ty := attrType a
  if CTA_MAX < ty then some tb
  else if ty = CTA_TUPLE_ORIG ∨ ty = CTA_TUPLE_REPLY ∨
          ty = CTA_COUNTERS_ORIG ∨ ty = CTA_COUNTERS_REPLY then
    if validNested a then some (tbSet tb ty a) else none
  else if ty = CTA_STATUS ∨ ty = CTA_TIMEOUT ∨ ty = CTA_MARK ∨
          ty = CTA_SECMARK ∨ ty = CTA_ID then
    if validU32 a then some (tbSet tb ty a) else none
  else some (tbSet tb ty a)

/-- parse_tuple_cb: CTA_TUPLE_* attribute callback. -/
def parse_tuple_cb (a : Attr) (tb : Tb) : Option Tb :=
  let ty := attrType a
  if CTA_TUPLE_MAX < ty then some tb
  else if ty = CTA_TUPLE_IP ∨ ty = CTA_TUPLE_PROTO then
    if validNested a then some (tbSet tb ty a) else none
  else some (tbSet tb ty a)

/-- parse_ip_cb: CTA_IP_* attribute callback. -/
def parse_ip_cb (a : Attr) (tb : Tb) : Option Tb :=
  let ty := attrType a
  if CTA_IP_MAX < ty then some tb
  else if ty = CTA_IP_V4_SRC ∨ ty = CTA_IP_V4_DST then
    if validU32 a then some (tbSet tb ty a) else none
  else if ty = CTA_IP_V6_SRC ∨ ty = CTA_IP_V6_DST then
    if validExact a 16 then some (tbSet tb ty a) else none
  else some (tbSet tb ty a)

/-- parse_proto_cb: CTA_PROTO_* attribute callback. -/
def parse_proto_cb (a : Attr) (tb : Tb) : Option Tb :=
  let ty := attrType a
  if CTA_PROTO_MAX < ty then some tb
  else if ty = CTA_PROTO_NUM ∨ ty = CTA_PROTO_ICMP_TYPE ∨ ty = CTA_PROTO_ICMP_CODE then
    if validU8 a then some (tbSet tb ty a) else none
  else if ty = CTA_PROTO_SRC_PORT ∨ ty = CTA_PROTO_DST_PORT ∨ ty = CTA_PROTO_ICMP_ID then
    if validU16 a then some (tbSet tb ty a) else none
  else some (tbSet tb ty a)

/-! ## Packet assembly (src/nfqueue-mnl.h lines 554-745) -/

/-- struct ip_tuple.  Addresses are the 16 bytes of the `ip_address_t`
union member (an IPv4 address occupies the low 4 bytes, the rest
cleared), which keeps the model independent of host endianness. -/
structure IpTuple where
  ip_version : Nat
  src : List Nat
  dst : List Nat
  src_port : Nat
  dst_port : Nat
deriving DecidableEq, Repr

def IpTuple.zero : IpTuple :=
  { ip_version := 0, src := List.replicate 16 0, dst := List.replicate 16 0,
    src_port := 0, dst_port := 0 }

/-- read_ip_addr: copy one address attribute (if present) into the
address slot, inferring and checking the tuple's address family.
Returns (success, new address bytes, new ip_version); the address write
happens before the family check, exactly as in C. -/
def read_ip_addr (attr : Option Attr) (af : Nat) (ip : List Nat) (ver : Nat) :
    Bool × List Nat × Nat :=
  match attr with
  | none => (true, ip, ver)
  | some a =>
    let addr := a.bytesOf
    let ipNew :=
      if af = AF_INET then addr.take 4 ++ List.replicate 12 0
      else if af = AF_INET6 then addr.take 16
      else ip
    let ipVer := if af = AF_INET then IPV4 else if af = AF_INET6 then IPV6 else 0
    if ver = 0 then (true, ipNew, ipVer)
    else if ver ≠ ipVer then (false, ipNew, ver)
    else (true, ipNew, ver)

/-- The CTA_TUPLE_IP section of read_addr_tuple: the four read_ip_addr
calls, all executed (the C code accumulates with `success &=`, no
short-circuit), threading src/dst/ip_version through. -/
def readIpSection (tb3 : Tb) (t : IpTuple) : Bool × IpTuple :=
  let r1 := read_ip_addr (tbGet tb3 CTA_IP_V4_SRC) AF_INET t.src t.ip_version
  let r2 := read_ip_addr (tbGet tb3 CTA_IP_V4_DST) AF_INET t.dst r1.2.2
  let r3 := read_ip_addr (tbGet tb3 CTA_IP_V6_SRC) AF_INET6 r1.2.1 r2.2.2
  let r4 := read_ip_addr (tbGet tb3 CTA_IP_V6_DST) AF_INET6 r2.2.1 r3.2.2
  (r1.1 && r2.1 && r3.1 && r4.1,
   { t with src := r3.2.1, dst := r4.2.1, ip_version := r4.2.2 })

/-- The CTA_TUPLE_PROTO section of read_addr_tuple: read the ports. -/
def readProtoSection (tb4 : Tb) (t : IpTuple) : IpTuple :=
  let t1 :=
    match tbGet tb4 CTA_PROTO_SRC_PORT with
    | some a => { t with src_port := getU16BE a.bytesOf }
    | none => t
  match tbGet tb4 CTA_PROTO_DST_PORT with
  | some a => { t1 with dst_port := getU16BE a.bytesOf }
  | none => t1

/-- read_addr_tuple: parse one CTA_TUPLE_ORIG/REPLY attribute into an
ip_tuple.  Returns (success, tuple after in-place mutation). -/
def read_addr_tuple (a : Attr) (t : IpTuple) : Bool × IpTuple :=
  match a.nestedOf with
  | none => (false, t)
  | some inner =>
    match runCb parse_tuple_cb inner tbEmpty with
    | none => (false, t)
    | some tb2 =>
      match tbGet tb2 CTA_TUPLE_IP with
      | some ipa =>
        match ipa.nestedOf with
        | none => (false, t)
        | some ipInner =>
          match runCb parse_ip_cb ipInner tbEmpty with
          | none => (false, t)
          | some tb3 =>
            let r := readIpSection tb3 t
            if r.1 then
              match tbGet tb2 CTA_TUPLE_PROTO with
              | some pa =>
                match pa.nestedOf with
                | none => (false, r.2)
                | some pInner =>
                  match runCb parse_proto_cb pInner tbEmpty with
                  | none => (false, r.2)
                  | some tb4 => (true, readProtoSection tb4 r.2)
              | none => (true, r.2)
            else (false, r.2)
      | none =>
        match tbGet tb2 CTA_TUPLE_PROTO with
        | some pa =>
          match pa.nestedOf with
          | none => (false, t)
          | some pInner =>
            match runCb parse_proto_cb pInner tbEmpty with
            | none => (false, t)
            | some tb4 => (true, readProtoSection tb4 t)
        | none => (true, t)

/-- struct nf_packet.  `payload = none` models the NULL pointer left by
the initial memset; `some bs` models an owned heap copy of the payload
bytes.  Clock readings are the opaque values sampled at parse time. -/
structure NfPacket where
  queue_num : Nat
  packet_id : Nat
  hw_protocol : Nat
  payload_len : Nat
  payload : Option (List Nat)
  has_timestamp : Bool
  timestamp_sec : Nat
  timestamp_usec : Nat
  wall_time : Nat
  mono_time : Nat
  has_conntrack : Bool
  has_connmark : Bool
  conn_id : Nat
  conn_mark : Nat
  conn_state : Nat
  conn_status : Nat
  orig : IpTuple
  reply : IpTuple
deriving DecidableEq, Repr

/-- The packet right after `memset(packet, 0, ...)` and the two
`clock_gettime` calls at the top of nfqueue_parse. -/
def NfPacket.zero (wall mono : Nat) : NfPacket :=
  { queue_num := 0, packet_id := 0, hw_protocol := 0, payload_len := 0,
    payload := none, has_timestamp := false, timestamp_sec := 0,
    timestamp_usec := 0, wall_time := wall, mono_time := mono,
    has_conntrack := false, has_connmark := false, conn_id := 0,
    conn_mark := 0, conn_state := 0, conn_status := 0,
    orig := IpTuple.zero, reply := IpTuple.zero }

/-- One inbound netlink message: header fields, the nfgenmsg `res_id`
(byte order abstracted: the value after ntohs), and the top-level
attribute sequence that mnl_attr_parse walks. -/
structure NlMsg where
  nlmsg_len : Nat
  nlmsg_type : Nat
  nlmsg_flags : Nat
  res_id : Nat
  attrs : List Attr

/-- The top-level attribute table of a message (mnl_attr_parse with
parse_nfqa_attr_cb). -/
def nfqaTable (m : NlMsg) : Option Tb := runCb parse_nfqa_attr_cb m.attrs tbEmpty

/-- Lookup of one top-level attribute; `none` when the table walk
itself failed or the attribute is absent. -/
def nfqaGet (m : NlMsg) (ty : Nat) : Option Attr :=
  match nfqaTable m with
  | none => none
  | some tb => tbGet tb ty

/-- The timestamp step of nfqueue_parse: a present NFQA_TIMESTAMP whose
sec and usec fields are both zero leaves has_timestamp false and the
timestamp fields zero, exactly like an absent attribute. -/
def parseTimestampStep (tb : Tb) (p : NfPacket) : NfPacket :=
  match tbGet tb NFQA_TIMESTAMP with
  | none => p
  | some ts =>
    let sec := getU64BE ts.bytesOf
    let usec := getU64BE (ts.bytesOf.drop 8)
    if sec ≠ 0 ∨ usec ≠ 0 then
      { p with has_timestamp := true, timestamp_sec := sec, timestamp_usec := usec }
    else p

/-- The conntrack step of nfqueue_parse (the NFQA_CT branch). -/
def parseConntrackStep (tb : Tb) (p : NfPacket) : Bool × NfPacket :=
  match tbGet tb NFQA_CT with
  | none => (true, { p with has_conntrack := false })
  | some ct =>
    let p1 := { p with has_conntrack := true }
    match ct.nestedOf with
    | none => (false, p1)
    | some ctInner =>
      match runCb parse_cta_attr_cb ctInner tbEmpty with
      | none => (false, p1)
      | some tb1 =>
        let p2 :=
          match tbGet tb1 CTA_ID with
          | some a => { p1 with conn_id := getU32BE a.bytesOf }
          | none => p1
        let p3 :=
          match tbGet tb1 CTA_STATUS with
          | some a => { p2 with conn_status := getU32BE a.bytesOf }
          | none => p2
        let p4 :=
          match tbGet tb1 CTA_MARK with
          | some a => { p3 with has_connmark := true, conn_mark := getU32BE a.bytesOf }
          | none => p3
        match tbGet tb1 CTA_TUPLE_ORIG with
        | some a =>
          match read_addr_tuple a p4.orig with
          | (false, t) => (false, { p4 with orig := t })
          | (true, t) =>
            let p5 := { p4 with orig := t }
            match tbGet tb1 CTA_TUPLE_REPLY with
            | some a2 =>
              match read_addr_tuple a2 p5.reply with
              | (false, t2) => (false, { p5 with reply := t2 })
              | (true, t2) => (true, { p5 with reply := t2 })
            | none => (true, p5)
        | none =>
          match tbGet tb1 CTA_TUPLE_REPLY with
          | some a2 =>
            match read_addr_tuple a2 p4.reply with
            | (false, t2) => (false, { p4 with reply := t2 })
            | (true, t2) => (true, { p4 with reply := t2 })
          | none => (true, p4)

/-- The tail of nfqueue_parse after the payload copy: the timestamp
step, the conntrack step, and the NFQA_CT_INFO read, in source order. -/
def parseTailSteps (tb : Tb) (p2 : NfPacket) : Bool × NfPacket :=
  let p3 := parseTimestampStep tb p2
  match parseConntrackStep tb p3 with
  | (false, p4) => (false, p4)
  | (true, p4) =>
    match tbGet tb NFQA_CT_INFO with
    | some ci => (true, { p4 with conn_state := getU32BE ci.bytesOf })
    | none => (true, p4)

/-- nfqueue_parse: assemble an nf_packet from one inbound message.
Returns the C bool result together with the out-parameter packet as
left by the function (partial writes persist on the error paths). -/
def nfqueue_parse (wall mono : Nat) (m : NlMsg) : Bool × NfPacket :=
  let p0 := NfPacket.zero wall mono
  match nfqaTable m with
  | none => (false, p0)
  | some tb =>
    match tbGet tb NFQA_PACKET_HDR with
    | none => (false, p0)
    | some ph =>
      match tbGet tb NFQA_PAYLOAD with
      | none => (false, p0)
      | some pl =>
        let p1 := { p0 with
          queue_num := m.res_id,
          packet_id := getU32BE ph.bytesOf,
          hw_protocol := getU16BE (ph.bytesOf.drop 4),
          payload_len := pl.plen }
        if pl.plen = 0 then (false, p1)
        else parseTailSteps tb { p1 with payload := some (pl.bytesOf.take pl.plen) }

/-! ## The receive-buffer iterator nfqueue_next (lines 978-1002)

struct nf_buffer's iteration state is the cursor `nlh` and the
remaining length `len`; the cursor is modelled as the list of messages
laid out at and after it. -/

/-- struct nf_buffer iteration state. -/
structure NfBuffer where
  msgs : List NlMsg
  len : Int

/-- mnl_nlmsg_ok on the message at the cursor: remaining length holds a
header, the message declares at least a header, and the declared length
fits in the remaining length. -/
def mnl_nlmsg_ok (m : NlMsg) (len : Int) : Bool :=
  decide (16 ≤ len) && decide (16 ≤ m.nlmsg_len) && decide ((m.nlmsg_len : Int) ≤ len)

/-- mnl_nlmsg_next: advance the cursor past the (aligned) current
message and decrease the remaining length accordingly. -/
def mnl_nlmsg_next (b : NfBuffer) : NfBuffer :=
  match b.msgs with
  | [] => b
  | m :: rest => { msgs := rest, len := b.len - (MNL_ALIGN m.nlmsg_len : Int) }

/-- The I/O result of one nfqueue_next call (IO_ERROR / IO_READY with
the out packet / IO_NOTREADY). -/
inductive NextResult : Type where
  | ioError : NextResult
  | ioReady (p : NfPacket) : NextResult
  | ioNotReady : NextResult
deriving DecidableEq, Repr

/-- The while loop of nfqueue_next, indexed by fuel: `some (r, b')`
means the C function returns result `r` leaving the buffer state `b'`
within that many loop iterations; `none` means the loop has not
terminated within the given fuel.  One C loop iteration consumes one
unit of fuel only on the path that neither returns nor advances. -/
def nfqueue_next_loop (wall mono : Nat) : Nat → NfBuffer → Option (NextResult × NfBuffer)
  | 0, _ => none
  | fuel + 1, b =>
    match b.msgs with
    | [] => some (.ioNotReady, b)
    | m :: _ =>
      if mnl_nlmsg_ok m b.len then
        if m.nlmsg_flags &&& NLM_F_DUMP_INTR ≠ 0 then some (.ioError, b)
        else if NLMSG_MIN_TYPE ≤ m.nlmsg_type then
          match nfqueue_parse wall mono m with
          | (false, _) => some (.ioError, b)
          | (true, p) => some (.ioReady p, mnl_nlmsg_next b)
        else nfqueue_next_loop wall mono fuel b
      else some (.ioNotReady, b)

/-- `count` successive nfqueue_next calls on a buffer, each given the
same per-call fuel; collects the results and the final buffer state.  A
diverging call contributes no result. -/
def runNext (wall mono fuel : Nat) : Nat → NfBuffer → List NextResult × NfBuffer
  | 0, b => ([], b)
  | count + 1, b =>
    match nfqueue_next_loop wall mono fuel b with
    | none => ([], b)
    | some (r, b2) =>
      let res := runNext wall mono fuel count b2
      (r :: res.1, res.2)

/-- The receive length of a buffer holding exactly these concatenated
messages: each message occupies its aligned declared length. -/
def bufLenOf (msgs : List NlMsg) : Nat := (msgs.map (fun m => MNL_ALIGN m.nlmsg_len)).sum

/-- A well-formed event message as required by the iteration claims:
plausible header length, dump-interrupted flag clear, application
message type, and accepted by nfqueue_parse. -/
def WellFormedEventMsg (wall mono : Nat) (m : NlMsg) : Prop :=
  16 ≤ m.nlmsg_len ∧ m.nlmsg_flags &&& NLM_F_DUMP_INTR = 0 ∧
  NLMSG_MIN_TYPE ≤ m.nlmsg_type ∧ (nfqueue_parse wall mono m).1 = true

instance (wall mono : Nat) (m : NlMsg) : Decidable (WellFormedEventMsg wall mono m) := by
  unfold WellFormedEventMsg; infer_instance

/-! ## Outbound command encoders (lines 217-374) -/

/-- An attribute written into an outbound message: a plain TLV, or a
nest opened with mnl_attr_nest_start (NLA_F_NESTED set on the type) and
closed with mnl_attr_nest_end. -/
inductive OutAttr : Type where
  | plain (ty : Nat) (payload : List Nat) : OutAttr
  | nest (ty : Nat) (inner : List OutAttr) : OutAttr

/-- An outbound message under construction / as handed to
mnl_socket_sendto: netlink header fields, the nfgenmsg sub-header, and
the attributes written so far. -/
structure OutMsg where
  nlmsg_len : Nat
  nlmsg_type : Nat
  nlmsg_flags : Nat
  nfgen_family : Nat
  version : Nat
  res_id : Nat
  attrs : List OutAttr

/-- nfqueue_put_header: start a message in a scratch buffer of capacity
`bufLen`: netlink header (16 bytes aligned) and nfgenmsg sub-header (4
bytes aligned), with both capacity checks; `none` models the NULL
return.  `res_id` holds htons(queue_num) as a value (byte order
abstracted), truncated to 16 bits. -/
def nfqueue_put_header (bufLen : Nat) (queue_num msg_type : Nat) : Option OutMsg :=
  if 16 > bufLen then none
  else if 16 + 4 > bufLen then none
  else some
    { nlmsg_len := 20,
      nlmsg_type := NFNL_SUBSYS_QUEUE * 256 + msg_type,
      nlmsg_flags := NLM_F_REQUEST,
      nfgen_family := AF_UNSPEC,
      version := 0,
      res_id := queue_num % 65536,
      attrs := [] }

/-- mnl_attr_put_check: append one attribute if the header plus aligned
payload still fits in the scratch buffer, else fail. -/
def mnl_attr_put_check (bufLen : Nat) (m : OutMsg) (ty : Nat) (payload : List Nat) :
    Option OutMsg :=
  if m.nlmsg_len + 4 + MNL_ALIGN payload.length > bufLen then none
  else some { m with
    nlmsg_len := m.nlmsg_len + MNL_ALIGN (4 + payload.length),
    attrs := m.attrs ++ [.plain ty payload] }

/-- Outcome of one encoder call.  `bufTooShort` models the
BUF_TOO_SHORT (-42) return with errno set to ENOBUFS and
mnl_socket_sendto never called; `sent m` models mnl_socket_sendto being
invoked with the completed message `m`. -/
inductive EncodeResult : Type where
  | bufTooShort : EncodeResult
  | sent (m : OutMsg) : EncodeResult

/-- nfqueue_send_command: header, then a single attribute carrying
`data`, then send. -/
def nfqueue_send_command (bufLen : Nat) (queue_num msg_type attr_type : Nat)
    (data : List Nat) : EncodeResult :=
  match nfqueue_put_header bufLen queue_num msg_type with
  | none => .bufTooShort
  | some m =>
    match mnl_attr_put_check bufLen m attr_type data with
    | none => .bufTooShort
    | some m2 => .sent m2

/-- The 5-byte packed nfqnl_msg_config_params payload:
htonl(copy_range) followed by the copy_mode byte. -/
def configParamsBytes (mode range : Nat) : List Nat := be32Bytes range ++ [mode % 256]

/-- nfqueue_set_params: NFQA_CFG_PARAMS always; NFQA_CFG_QUEUE_MAXLEN
when maxlen > 0; NFQA_CFG_FLAGS and NFQA_CFG_MASK when flags is
non-zero; then send. -/
def nfqueue_set_params (bufLen : Nat) (queue_num mode range maxlen flags : Nat) :
    EncodeResult :=
  match nfqueue_put_header bufLen queue_num NFQNL_MSG_CONFIG with
  | none => .bufTooShort
  | some m =>
    match mnl_attr_put_check bufLen m NFQA_CFG_PARAMS (configParamsBytes mode range) with
    | none => .bufTooShort
    | some m1 =>
      match (if 0 < maxlen then
               mnl_attr_put_check bufLen m1 NFQA_CFG_QUEUE_MAXLEN (be32Bytes maxlen)
             else some m1) with
      | none => .bufTooShort
      | some m2 =>
        match (if flags ≠ 0 then
                 (mnl_attr_put_check bufLen m2 NFQA_CFG_FLAGS (be32Bytes flags)).bind
                   (fun m3 => mnl_attr_put_check bufLen m3 NFQA_CFG_MASK (be32Bytes flags))
               else some m2) with
        | none => .bufTooShort
        | some m4 => .sent m4

/-- The 8-byte nfqnl_msg_verdict_hdr payload: htonl(verdict) followed
by htonl(packet_id). -/
def verdictHdrBytes (verdict packet_id : Nat) : List Nat :=
  be32Bytes verdict ++ be32Bytes packet_id

/-- nfqueue_send_verdict_connmark: verdict header attribute always; a
NFQA_CT nest holding a single CTA_MARK attribute only when
connmark >= 0 (the negative sentinel means do not set); then send.
The nest start check and the u32 put check mirror
mnl_attr_nest_start_check and mnl_attr_put_u32_check. -/
def nfqueue_send_verdict_connmark (bufLen : Nat) (queue_num packet_id verdict : Nat)
    (connmark : Int) : EncodeResult :=
  match nfqueue_put_header bufLen queue_num NFQNL_MSG_VERDICT with
  | none => .bufTooShort
  | some m =>
    match mnl_attr_put_check bufLen m NFQA_VERDICT_HDR (verdictHdrBytes verdict packet_id) with
    | none => .bufTooShort
    | some m1 =>
      if 0 ≤ connmark then
        if m1.nlmsg_len + 4 > bufLen then .bufTooShort
        else if m1.nlmsg_len + 4 + 4 + 4 > bufLen then .bufTooShort
        else .sent { m1 with
          nlmsg_len := m1.nlmsg_len + 12,
          attrs := m1.attrs ++
            [.nest NFQA_CT [.plain CTA_MARK (be32Bytes (connmark.toNat % 2 ^ 32))]] }
      else .sent m1

/-! ## Concrete example inputs (used by the witness theorems) -/

/-- A minimal netlink control message (NLMSG_ERROR, type 2 < NLMSG_MIN_TYPE). -/
def ctrlMsg : NlMsg :=
  { nlmsg_len := 16, nlmsg_type := 2, nlmsg_flags := 0, res_id := 0, attrs := [] }

/-- A buffer whose single message is the control message. -/
def ctrlBuf : NfBuffer := { msgs := [ctrlMsg], len := 16 }

/-- A message with the NLM_F_DUMP_INTR flag set. -/
def dumpIntrMsg : NlMsg :=
  { nlmsg_len := 16, nlmsg_type := 768, nlmsg_flags := NLM_F_DUMP_INTR, res_id := 0, attrs := [] }

def dumpIntrBuf : NfBuffer := { msgs := [dumpIntrMsg], len := 16 }

/-- An event-typed message with no attributes: nfqueue_parse rejects it
(missing packet metaheader). -/
def badEventMsg : NlMsg :=
  { nlmsg_len := 16, nlmsg_type := 768, nlmsg_flags := 0, res_id := 0, attrs := [] }

def badEventBuf : NfBuffer := { msgs := [badEventMsg], len := 16 }

/-- A well-formed NFQA_PACKET_HDR attribute (7 payload bytes). -/
def phAttr : Attr := .mk NFQA_PACKET_HDR 7 (.bytes [0, 0, 0, 1, 8, 0, 0])

/-- A well-formed NFQA_PAYLOAD attribute (4 payload bytes). -/
def plAttr : Attr := .mk NFQA_PAYLOAD 4 (.bytes [1, 2, 3, 4])

/-- A minimal event message that nfqueue_parse accepts. -/
def goodMsg : NlMsg :=
  { nlmsg_len := 40, nlmsg_type := 768, nlmsg_flags := 0, res_id := 3,
    attrs := [phAttr, plAttr] }

/-- A second accepted event message (different payload). -/
def goodMsg2 : NlMsg :=
  { nlmsg_len := 40, nlmsg_type := 768, nlmsg_flags := 0, res_id := 3,
    attrs := [phAttr, .mk NFQA_PAYLOAD 2 (.bytes [9, 9])] }

/-- An all-zero NFQA_TIMESTAMP attribute (sec = usec = 0). -/
def tsZeroAttr : Attr := .mk NFQA_TIMESTAMP 16 (.bytes (List.replicate 16 0))

/-- goodMsg extended with a present-but-zero kernel timestamp. -/
def tsZeroMsg : NlMsg :=
  { nlmsg_len := 60, nlmsg_type := 768, nlmsg_flags := 0, res_id := 3,
    attrs := [phAttr, plAttr, tsZeroAttr] }

/-- A CTA_IP_V4_SRC attribute. -/
def v4srcAttr : Attr := .mk CTA_IP_V4_SRC 4 (.bytes [10, 0, 0, 1])

/-- A CTA_IP_V6_DST attribute. -/
def v6dstAttr : Attr := .mk CTA_IP_V6_DST 16 (.bytes (List.replicate 16 1))

/-- A CTA_TUPLE_IP block holding a v4 source and a v6 destination. -/
def mixedIpAttr : Attr := .mk CTA_TUPLE_IP 28 (.nested [v4srcAttr, v6dstAttr])

/-- A CTA_TUPLE_ORIG attribute with the mixed-family IP block. -/
def mixedTupleAttr : Attr := .mk CTA_TUPLE_ORIG 32 (.nested [mixedIpAttr])

/-- An NFQA_CT attribute whose original tuple mixes address families. -/
def mixedCtAttr : Attr := .mk NFQA_CT 40 (.nested [mixedTupleAttr])

/-- An event message whose conntrack original tuple mixes families. -/
def mixedFamilyMsg : NlMsg :=
  { nlmsg_len := 84, nlmsg_type := 768, nlmsg_flags := 0, res_id := 3,
    attrs := [phAttr, plAttr, mixedCtAttr] }

/-- An NFQA_CT attribute whose CTA_MARK has an invalid width (3 bytes),
so the nested conntrack walk fails. -/
def badCtAttr : Attr := .mk NFQA_CT 8 (.nested [.mk CTA_MARK 3 (.bytes [0, 0, 0])])

/-- An event message whose conntrack block fails validation after the
payload has been copied. -/
def badCtMsg : NlMsg :=
  { nlmsg_len := 52, nlmsg_type := 768, nlmsg_flags := 0, res_id := 3,
    attrs := [phAttr, plAttr, badCtAttr] }

end Nfq

namespace Nfq

/-! ## Helper lemmas -/

theorem le_MNL_ALIGN (n : Nat) : n ≤ MNL_ALIGN n := by
  unfold MNL_ALIGN; omega

theorem read_ip_addr_none (af : Nat) (ip : List Nat) (ver : Nat) :
    read_ip_addr none af ip ver = (true, ip, ver) := rfl

theorem read_ip_addr_none_ver (af : Nat) (ip : List Nat) (ver : Nat) :
    (read_ip_addr none af ip ver).2.2 = ver := rfl

/-- One nfqueue_next call on a buffer whose head message is a
well-formed, accepted event message: READY with the parsed packet,
cursor advanced. -/
theorem next_loop_ready (wall mono fuel : Nat) (b : NfBuffer) (m : NlMsg) (rest : List NlMsg)
    (hm : b.msgs = m :: rest) (hok : mnl_nlmsg_ok m b.len = true)
    (hdi : m.nlmsg_flags &&& NLM_F_DUMP_INTR = 0) (hty : NLMSG_MIN_TYPE ≤ m.nlmsg_type)
    (hp : (nfqueue_parse wall mono m).1 = true) (hf : 1 ≤ fuel) :
    nfqueue_next_loop wall mono fuel b =
      some (.ioReady (nfqueue_parse wall mono m).2, mnl_nlmsg_next b) := by
  obtain ⟨f, rfl⟩ : ∃ f, fuel = f + 1 := ⟨fuel - 1, by omega⟩
  rcases hq : nfqueue_parse wall mono m with ⟨r, p⟩
  rw [hq] at hp
  simp only at hp
  subst hp
  simp [nfqueue_next_loop, hm, hok, hdi, hty, hq]

/-- One nfqueue_next call on an exhausted buffer: NOT-READY, state
unchanged. -/
theorem next_loop_empty (wall mono fuel : Nat) (b : NfBuffer)
    (hm : b.msgs = []) (hf : 1 ≤ fuel) :
    nfqueue_next_loop wall mono fuel b = some (.ioNotReady, b) := by
  obtain ⟨f, rfl⟩ : ∃ f, fuel = f + 1 := ⟨fuel - 1, by omega⟩
  simp only [nfqueue_next_loop, hm]

/-! ## C7 — dump-interrupted message: ERROR without advancing -/

/-- C7: for every receive buffer whose current message is addressable
and has the dump-interrupted flag set, nfqueue_next returns ERROR and
leaves the buffer state (cursor and remaining length) unchanged. -/
theorem claim_C7 (wall mono fuel : Nat) (b : NfBuffer) (m : NlMsg) (rest : List NlMsg)
    (hm : b.msgs = m :: rest) (hok : mnl_nlmsg_ok m b.len = true)
    (hdi : m.nlmsg_flags &&& NLM_F_DUMP_INTR ≠ 0) (hf : 1 ≤ fuel) :
    nfqueue_next_loop wall mono fuel b = some (.ioError, b) := by
  obtain ⟨f, rfl⟩ : ∃ f, fuel = f + 1 := ⟨fuel - 1, by omega⟩
  simp only [nfqueue_next_loop, hm, hok, if_true, if_pos hdi]

theorem claim_C7_witness :
    dumpIntrBuf.msgs = [dumpIntrMsg] ∧ mnl_nlmsg_ok dumpIntrMsg dumpIntrBuf.len = true ∧
    dumpIntrMsg.nlmsg_flags &&& NLM_F_DUMP_INTR ≠ 0 ∧
    nfqueue_next_loop 0 0 1 dumpIntrBuf = some (.ioError, dumpIntrBuf) :=
  ⟨rfl, by decide, by decide,
   claim_C7 0 0 1 dumpIntrBuf dumpIntrMsg [] rfl (by decide) (by decide) (by decide)⟩

/-! ## C9 — assembler failure: ERROR, cursor not advanced, repeatable -/

/-- C9: when nfqueue_next returns ERROR because the packet assembler
rejected the current message, the buffer state is unchanged (the cursor
still addresses the failing message), and every further call without an
intervening receive returns ERROR again with the state still
unchanged. -/
theorem claim_C9 (wall mono fuel : Nat) (b : NfBuffer) (m : NlMsg) (rest : List NlMsg)
    (hm : b.msgs = m :: rest) (hok : mnl_nlmsg_ok m b.len = true)
    (hdi : m.nlmsg_flags &&& NLM_F_DUMP_INTR = 0) (hty : NLMSG_MIN_TYPE ≤ m.nlmsg_type)
    (hp : (nfqueue_parse wall mono m).1 = false) (hf : 1 ≤ fuel) :
    nfqueue_next_loop wall mono fuel b = some (.ioError, b) ∧
    (∀ fuel2, 1 ≤ fuel2 → nfqueue_next_loop wall mono fuel2 b = some (.ioError, b)) := by
  have key : ∀ f2, 1 ≤ f2 → nfqueue_next_loop wall mono f2 b = some (.ioError, b) := by
    intro f2 hf2
    obtain ⟨f, rfl⟩ : ∃ f, f2 = f + 1 := ⟨f2 - 1, by omega⟩
    rcases hq : nfqueue_parse wall mono m with ⟨r, p⟩
    rw [hq] at hp
    simp only at hp
    subst hp
    simp [nfqueue_next_loop, hm, hok, hdi, hty, hq]
  exact ⟨key fuel hf, key⟩

theorem claim_C9_witness :
    (nfqueue_parse 0 0 badEventMsg).1 = false ∧
    nfqueue_next_loop 0 0 1 badEventBuf = some (.ioError, badEventBuf) ∧
    nfqueue_next_loop 0 0 7 badEventBuf = some (.ioError, badEventBuf) := by
  have h := claim_C9 0 0 1 badEventBuf badEventMsg [] rfl (by decide) (by decide)
    (by decide) (by decide) (by decide)
  exact ⟨by decide, h.1, h.2 7 (by decide)⟩

/-! ## C1 — reserved/control message types: the skip path never advances -/

/-- C1 (code defect): when the current message is addressable, has the
dump-interrupted flag clear, and carries a reserved/control type (below
NLMSG_MIN_TYPE), the nfqueue_next loop body neither returns nor
advances the cursor, so the function never terminates: the loop yields
no outcome for any number of iterations. -/
theorem claim_C1 (wall mono : Nat) (b : NfBuffer) (m : NlMsg) (rest : List NlMsg)
    (hm : b.msgs = m :: rest) (hok : mnl_nlmsg_ok m b.len = true)
    (hdi : m.nlmsg_flags &&& NLM_F_DUMP_INTR = 0) (hty : m.nlmsg_type < NLMSG_MIN_TYPE) :
    ∀ fuel, nfqueue_next_loop wall mono fuel b = none := by
  intro fuel
  induction fuel with
  | zero => rfl
  | succ f ih =>
    have hdi' : ¬ m.nlmsg_flags &&& NLM_F_DUMP_INTR ≠ 0 := fun h => h hdi
    have hty' : ¬ NLMSG_MIN_TYPE ≤ m.nlmsg_type := by omega
    simp only [nfqueue_next_loop, hm, hok, if_true, if_neg hdi', if_neg hty']
    exact ih

theorem claim_C1_witness :
    mnl_nlmsg_ok ctrlMsg ctrlBuf.len = true ∧ ctrlMsg.nlmsg_type < NLMSG_MIN_TYPE ∧
    nfqueue_next_loop 0 0 1000 ctrlBuf = none :=
  ⟨by decide, by decide,
   claim_C1 0 0 ctrlBuf ctrlMsg [] rfl (by decide) (by decide) (by decide) 1000⟩

/-! ## C3 — verdict encoding and the connmark sentinel -/

theorem verdictHdrBytes_length (verdict packet_id : Nat) :
    (verdictHdrBytes verdict packet_id).length = 8 := by
  simp [verdictHdrBytes, be32Bytes]

/-- C3: with a scratch buffer that fits a verdict message, a negative
connmark (the do-not-set sentinel) emits a verdict message with no
NFQA_CT nest at all, while any 32-bit connmark value (in particular 0
and 4294967295) emits the verdict message followed by an NFQA_CT nest
holding a single CTA_MARK attribute whose wire payload is the mark in
big-endian byte order. -/
theorem claim_C3 (bufLen queue_num packet_id verdict : Nat) (connmark : Int)
    (hb : 44 ≤ bufLen) :
    (connmark < 0 →
      nfqueue_send_verdict_connmark bufLen queue_num packet_id verdict connmark =
        .sent { nlmsg_len := 32, nlmsg_type := NFNL_SUBSYS_QUEUE * 256 + NFQNL_MSG_VERDICT,
                nlmsg_flags := NLM_F_REQUEST, nfgen_family := AF_UNSPEC, version := 0,
                res_id := queue_num % 65536,
                attrs := [.plain NFQA_VERDICT_HDR (verdictHdrBytes verdict packet_id)] }) ∧
    (0 ≤ connmark → connmark < 2 ^ 32 →
      nfqueue_send_verdict_connmark bufLen queue_num packet_id verdict connmark =
        .sent { nlmsg_len := 44, nlmsg_type := NFNL_SUBSYS_QUEUE * 256 + NFQNL_MSG_VERDICT,
                nlmsg_flags := NLM_F_REQUEST, nfgen_family := AF_UNSPEC, version := 0,
                res_id := queue_num % 65536,
                attrs := [.plain NFQA_VERDICT_HDR (verdictHdrBytes verdict packet_id),
                          .nest NFQA_CT [.plain CTA_MARK (be32Bytes connmark.toNat)]] }) := by
  have h16 : ¬ (16 > bufLen) := by omega
  have h20 : ¬ (16 + 4 > bufLen) := by omega
  have hc1 : ¬ (20 + 4 + MNL_ALIGN (verdictHdrBytes verdict packet_id).length > bufLen) := by
    rw [verdictHdrBytes_length]; unfold MNL_ALIGN; omega
  have hal : 20 + MNL_ALIGN (4 + (verdictHdrBytes verdict packet_id).length) = 32 := by
    rw [verdictHdrBytes_length]; decide
  constructor
  · intro hneg
    have hns : ¬ (0 ≤ connmark) := by omega
    simp [nfqueue_send_verdict_connmark, nfqueue_put_header, mnl_attr_put_check,
          h16, h20, hc1, hal, hns]
  · intro hpos hlt
    have hc2 : ¬ (32 + 4 > bufLen) := by omega
    have hc3 : ¬ (32 + 4 + 4 + 4 > bufLen) := by omega
    have hmod : connmark.toNat % 4294967296 = connmark.toNat := by
      apply Nat.mod_eq_of_lt; omega
    simp [nfqueue_send_verdict_connmark, nfqueue_put_header, mnl_attr_put_check,
          h16, h20, hc1, hal, hpos, hc2, hc3, hmod]

theorem claim_C3_witness :
    ((-1 : Int) < 0 ∧
      nfqueue_send_verdict_connmark 8192 5 7 1 (-1) =
        .sent { nlmsg_len := 32, nlmsg_type := 769, nlmsg_flags := 1, nfgen_family := 0,
                version := 0, res_id := 5,
                attrs := [.plain NFQA_VERDICT_HDR (verdictHdrBytes 1 7)] }) ∧
    nfqueue_send_verdict_connmark 8192 5 7 1 0 =
      .sent { nlmsg_len := 44, nlmsg_type := 769, nlmsg_flags := 1, nfgen_family := 0,
              version := 0, res_id := 5,
              attrs := [.plain NFQA_VERDICT_HDR (verdictHdrBytes 1 7),
                        .nest NFQA_CT [.plain CTA_MARK (be32Bytes 0)]] } ∧
    nfqueue_send_verdict_connmark 8192 5 7 1 4294967295 =
      .sent { nlmsg_len := 44, nlmsg_type := 769, nlmsg_flags := 1, nfgen_family := 0,
              version := 0, res_id := 5,
              attrs := [.plain NFQA_VERDICT_HDR (verdictHdrBytes 1 7),
                        .nest NFQA_CT [.plain CTA_MARK (be32Bytes 4294967295)]] } :=
  ⟨⟨by decide, (claim_C3 8192 5 7 1 (-1) (by decide)).1 (by decide)⟩,
   (claim_C3 8192 5 7 1 0 (by decide)).2 (by decide) (by decide),
   (claim_C3 8192 5 7 1 4294967295 (by decide)).2 (by decide) (by decide)⟩

/-! ## C6 — encoding capacity failures -/

theorem send_command_too_short (bufLen queue_num msg_type attr_type : Nat) (data : List Nat)
    (h : 24 + MNL_ALIGN data.length > bufLen) :
    nfqueue_send_command bufLen queue_num msg_type attr_type data = .bufTooShort := by
  by_cases c1 : 16 > bufLen
  · simp [nfqueue_send_command, nfqueue_put_header, c1]
  · by_cases c2 : 16 + 4 > bufLen
    · simp [nfqueue_send_command, nfqueue_put_header, c1, c2]
    · have c3 : 20 + 4 + MNL_ALIGN data.length > bufLen := by omega
      simp [nfqueue_send_command, nfqueue_put_header, mnl_attr_put_check, c1, c2, c3]

theorem set_params_too_short (bufLen queue_num mode range maxlen flags : Nat)
    (h : 32 + (if 0 < maxlen then 8 else 0) + (if flags ≠ 0 then 16 else 0) > bufLen) :
    nfqueue_set_params bufLen queue_num mode range maxlen flags = .bufTooShort := by
  have e5 : (configParamsBytes mode range).length = 5 := by
    simp [configParamsBytes, be32Bytes]
  have e4 : ∀ n : Nat, (be32Bytes n).length = 4 := by
    intro n; simp [be32Bytes]
  by_cases c1 : 16 > bufLen
  · simp [nfqueue_set_params, nfqueue_put_header, c1]
  · by_cases c2 : 16 + 4 > bufLen
    · simp [nfqueue_set_params, nfqueue_put_header, c1, c2]
    · by_cases c3 : 20 + 4 + MNL_ALIGN (configParamsBytes mode range).length > bufLen
      · simp [nfqueue_set_params, nfqueue_put_header, mnl_attr_put_check, c1, c2, c3]
      · have hb32 : 32 ≤ bufLen := by
          rw [e5] at c3; unfold MNL_ALIGN at c3; omega
        have hlen1 : 20 + MNL_ALIGN (4 + (configParamsBytes mode range).length) = 32 := by
          rw [e5]; decide
        by_cases cm : 0 < maxlen
        · by_cases c4 : 32 + 4 + MNL_ALIGN (be32Bytes maxlen).length > bufLen
          · simp [nfqueue_set_params, nfqueue_put_header, mnl_attr_put_check, c1, c2, c3,
                  hlen1, cm, c4]
          · have hb40 : 40 ≤ bufLen := by
              rw [e4] at c4; unfold MNL_ALIGN at c4; omega
            have hlen2 : 32 + MNL_ALIGN (4 + (be32Bytes maxlen).length) = 40 := by
              rw [e4]; decide
            have cf : flags ≠ 0 := by
              by_contra hf
              simp [cm, hf] at h; omega
            have hcase : 40 + 4 + MNL_ALIGN (be32Bytes flags).length > bufLen ∨
                (¬ (40 + 4 + MNL_ALIGN (be32Bytes flags).length > bufLen) ∧
                 48 + 4 + MNL_ALIGN (be32Bytes flags).length > bufLen) := by
              rw [e4]; unfold MNL_ALIGN
              simp [cm, cf] at h; omega
            rcases hcase with c5 | ⟨c5, c6⟩
            · simp [nfqueue_set_params, nfqueue_put_header, mnl_attr_put_check, c1, c2, c3,
                    hlen1, cm, c4, hlen2, cf, c5]
            · have hlen3 : 40 + MNL_ALIGN (4 + (be32Bytes flags).length) = 48 := by
                rw [e4]; decide
              simp [nfqueue_set_params, nfqueue_put_header, mnl_attr_put_check, c1, c2, c3,
                    hlen1, cm, c4, hlen2, cf, c5, hlen3, c6]
        · have cf : flags ≠ 0 := by
            by_contra hf
            simp [cm, hf] at h; omega
          have hcase : 32 + 4 + MNL_ALIGN (be32Bytes flags).length > bufLen ∨
              (¬ (32 + 4 + MNL_ALIGN (be32Bytes flags).length > bufLen) ∧
               40 + 4 + MNL_ALIGN (be32Bytes flags).length > bufLen) := by
            rw [e4]; unfold MNL_ALIGN
            simp [cm, cf] at h; omega
          rcases hcase with c5 | ⟨c5, c6⟩
          · simp [nfqueue_set_params, nfqueue_put_header, mnl_attr_put_check, c1, c2, c3,
                  hlen1, cm, cf, c5]
          · have hlen3 : 32 + MNL_ALIGN (4 + (be32Bytes flags).length) = 40 := by
              rw [e4]; decide
            simp [nfqueue_set_params, nfqueue_put_header, mnl_attr_put_check, c1, c2, c3,
                  hlen1, cm, cf, c5, hlen3, c6]

theorem verdict_connmark_too_short (bufLen queue_num packet_id verdict : Nat) (connmark : Int)
    (h : 32 + (if 0 ≤ connmark then 12 else 0) > bufLen) :
    nfqueue_send_verdict_connmark bufLen queue_num packet_id verdict connmark =
      .bufTooShort := by
  by_cases c1 : 16 > bufLen
  · simp [nfqueue_send_verdict_connmark, nfqueue_put_header, c1]
  · by_cases c2 : 16 + 4 > bufLen
    · simp [nfqueue_send_verdict_connmark, nfqueue_put_header, c1, c2]
    · by_cases c3 : 20 + 4 + MNL_ALIGN (verdictHdrBytes verdict packet_id).length > bufLen
      · simp [nfqueue_send_verdict_connmark, nfqueue_put_header, mnl_attr_put_check,
              c1, c2, c3]
      · have hb32 : 32 ≤ bufLen := by
          rw [verdictHdrBytes_length] at c3; unfold MNL_ALIGN at c3; omega
        have hlen1 : 20 + MNL_ALIGN (4 + (verdictHdrBytes verdict packet_id).length) = 32 := by
          rw [verdictHdrBytes_length]; decide
        have hcm : 0 ≤ connmark := by
          by_contra hneg
          simp [hneg] at h; omega
        have hsplit : 32 + 4 > bufLen ∨ (¬ (32 + 4 > bufLen) ∧ 32 + 4 + 4 + 4 > bufLen) := by
          simp [hcm] at h; omega
        rcases hsplit with c4 | ⟨c4, c5⟩
        · simp [nfqueue_send_verdict_connmark, nfqueue_put_header, mnl_attr_put_check,
                c1, c2, c3, hlen1, hcm, c4]
        · simp [nfqueue_send_verdict_connmark, nfqueue_put_header, mnl_attr_put_check,
                c1, c2, c3, hlen1, hcm, c4, c5]

/-- C6: whenever an outbound command's header and attributes would
exceed the scratch buffer capacity, each encoder returns the
distinguished buffer-too-short failure (mapped to the out-of-space
errno) and the message is never handed to the socket send call. -/
theorem claim_C6 (bufLen queue_num msg_type attr_type mode range maxlen flags
    packet_id verdict : Nat) (data : List Nat) (connmark : Int) :
    (24 + MNL_ALIGN data.length > bufLen →
      nfqueue_send_command bufLen queue_num msg_type attr_type data = .bufTooShort) ∧
    (32 + (if 0 < maxlen then 8 else 0) + (if flags ≠ 0 then 16 else 0) > bufLen →
      nfqueue_set_params bufLen queue_num mode range maxlen flags = .bufTooShort) ∧
    (32 + (if 0 ≤ connmark then 12 else 0) > bufLen →
      nfqueue_send_verdict_connmark bufLen queue_num packet_id verdict connmark =
        .bufTooShort) :=
  ⟨send_command_too_short bufLen queue_num msg_type attr_type data,
   set_params_too_short bufLen queue_num mode range maxlen flags,
   verdict_connmark_too_short bufLen queue_num packet_id verdict connmark⟩

/-! ## Field-preservation lemmas for the assembler stages -/

theorem parseTimestampStep_fields (tb : Tb) (p : NfPacket) :
    (parseTimestampStep tb p).wall_time = p.wall_time ∧
    (parseTimestampStep tb p).mono_time = p.mono_time ∧
    (parseTimestampStep tb p).payload = p.payload ∧
    (parseTimestampStep tb p).payload_len = p.payload_len := by
  simp only [parseTimestampStep]
  split
  · simp
  · split <;> simp

theorem read_addr_tuple_fields (a : Attr) (t : IpTuple) :
    (read_addr_tuple a t).2.src_port = (read_addr_tuple a t).2.src_port := rfl

theorem parseConntrackStep_fields (tb : Tb) (p : NfPacket) :
    (parseConntrackStep tb p).2.wall_time = p.wall_time ∧
    (parseConntrackStep tb p).2.mono_time = p.mono_time ∧
    (parseConntrackStep tb p).2.payload = p.payload ∧
    (parseConntrackStep tb p).2.payload_len = p.payload_len ∧
    (parseConntrackStep tb p).2.has_timestamp = p.has_timestamp ∧
    (parseConntrackStep tb p).2.timestamp_sec = p.timestamp_sec ∧
    (parseConntrackStep tb p).2.timestamp_usec = p.timestamp_usec := by
  simp only [parseConntrackStep]
  repeat' split
  all_goals simp

/-- If the timestamp attribute is absent, or present with both fields
zero, the timestamp step leaves the packet unchanged. -/
theorem parseTimestampStep_zero (tb : Tb) (p : NfPacket)
    (h : tbGet tb NFQA_TIMESTAMP = none ∨
         ∃ a, tbGet tb NFQA_TIMESTAMP = some a ∧ getU64BE a.bytesOf = 0 ∧
              getU64BE (a.bytesOf.drop 8) = 0) :
    parseTimestampStep tb p = p := by
  unfold parseTimestampStep
  rcases h with h | ⟨a, ha, h1, h2⟩
  · rw [h]
  · rw [ha]; simp [h1, h2]

/-! ## C8 — missing mandatory attributes or empty payload -/

/-- C8: assembly fails whenever the packet metaheader is absent, the
payload attribute is absent, or the payload attribute has length zero,
independent of the remaining attributes. -/
theorem claim_C8 (wall mono : Nat) (m : NlMsg)
    (h : nfqaGet m NFQA_PACKET_HDR = none ∨ nfqaGet m NFQA_PAYLOAD = none ∨
         (∃ pa, nfqaGet m NFQA_PAYLOAD = some pa ∧ pa.plen = 0)) :
    (nfqueue_parse wall mono m).1 = false := by
  unfold nfqaGet at h
  unfold nfqueue_parse
  split
  · rfl
  next tb htb =>
    rw [htb] at h
    simp only at h
    split
    · rfl
    next ph hph =>
      split
      · rfl
      next pa hpl =>
        simp only [hph, hpl] at h
        rcases h with h | h | ⟨pa2, hpa2, hz⟩
        · exact absurd h (by simp)
        · exact absurd h (by simp)
        · have : pa = pa2 := by injection hpa2
          subst this
          rw [if_pos hz]

theorem claim_C8_witness :
    nfqaGet badEventMsg NFQA_PACKET_HDR = none ∧
    (nfqueue_parse 0 0 badEventMsg).1 = false :=
  ⟨rfl, claim_C8 0 0 badEventMsg (Or.inl rfl)⟩

theorem parseTailSteps_fields (tb : Tb) (p2 : NfPacket) :
    (parseTailSteps tb p2).2.wall_time = p2.wall_time ∧
    (parseTailSteps tb p2).2.mono_time = p2.mono_time ∧
    (parseTailSteps tb p2).2.payload = p2.payload ∧
    (parseTailSteps tb p2).2.payload_len = p2.payload_len := by
  obtain ⟨h1, h2, h3, h4⟩ := parseTimestampStep_fields tb p2
  obtain ⟨g1, g2, g3, g4, -, -, -⟩ := parseConntrackStep_fields tb (parseTimestampStep tb p2)
  simp only [parseTailSteps]
  rcases hc : parseConntrackStep tb (parseTimestampStep tb p2) with ⟨s, p4⟩
  rw [hc] at g1 g2 g3 g4
  simp only at g1 g2 g3 g4
  cases s
  · simp only []
    exact ⟨by rw [g1, h1], by rw [g2, h2], by rw [g3, h3], by rw [g4, h4]⟩
  · rcases hci : tbGet tb NFQA_CT_INFO with _ | ci <;>
      simp only [hci] <;>
      exact ⟨by simp [g1, h1], by simp [g2, h2], by simp [g3, h3], by simp [g4, h4]⟩

/-- With the timestamp attribute absent or all-zero, the assembler tail
leaves the timestamp fields of the packet untouched. -/
theorem parseTailSteps_ts_zero (tb : Tb) (p2 : NfPacket)
    (h : tbGet tb NFQA_TIMESTAMP = none ∨
         ∃ a, tbGet tb NFQA_TIMESTAMP = some a ∧ getU64BE a.bytesOf = 0 ∧
              getU64BE (a.bytesOf.drop 8) = 0) :
    (parseTailSteps tb p2).2.has_timestamp = p2.has_timestamp ∧
    (parseTailSteps tb p2).2.timestamp_sec = p2.timestamp_sec ∧
    (parseTailSteps tb p2).2.timestamp_usec = p2.timestamp_usec := by
  have he : parseTimestampStep tb p2 = p2 := parseTimestampStep_zero tb p2 h
  obtain ⟨-, -, -, -, g5, g6, g7⟩ := parseConntrackStep_fields tb (parseTimestampStep tb p2)
  rw [he] at g5 g6 g7
  simp only [parseTailSteps, he]
  rcases hc : parseConntrackStep tb p2 with ⟨s, p4⟩
  rw [hc] at g5 g6 g7
  simp only at g5 g6 g7
  cases s
  · simp only []
    exact ⟨g5, g6, g7⟩
  · rcases hci : tbGet tb NFQA_CT_INFO with _ | ci <;>
      simp only [hci] <;>
      exact ⟨by simp [g5], by simp [g6], by simp [g7]⟩

/-! ## C2 — N well-formed event messages yield N READY results in order -/

theorem bufLenOf_cons (m : NlMsg) (rest : List NlMsg) :
    bufLenOf (m :: rest) = MNL_ALIGN m.nlmsg_len + bufLenOf rest := by
  simp [bufLenOf]

theorem runNext_all_ready (wall mono fuel : Nat) (hf : 1 ≤ fuel) :
    ∀ msgs : List NlMsg, (∀ m ∈ msgs, WellFormedEventMsg wall mono m) →
      runNext wall mono fuel msgs.length ⟨msgs, (bufLenOf msgs : Int)⟩ =
        (msgs.map (fun m => NextResult.ioReady (nfqueue_parse wall mono m).2),
         ⟨[], 0⟩) := by
  intro msgs
  induction msgs with
  | nil =>
    intro _
    simp [runNext, bufLenOf]
  | cons m rest ih =>
    intro hwf
    obtain ⟨h16, hdi, hty, hp⟩ := hwf m (List.mem_cons_self m rest)
    have hrest : ∀ m2 ∈ rest, WellFormedEventMsg wall mono m2 :=
      fun m2 hm2 => hwf m2 (List.mem_cons_of_mem m hm2)
    have halign := le_MNL_ALIGN m.nlmsg_len
    have hok : mnl_nlmsg_ok m ((bufLenOf (m :: rest) : Nat) : Int) = true := by
      simp only [mnl_nlmsg_ok, Bool.and_eq_true, decide_eq_true_eq]
      rw [bufLenOf_cons]
      refine ⟨⟨?_, h16⟩, ?_⟩
      · push_cast; omega
      · push_cast; omega
    have hcall := next_loop_ready wall mono fuel
      ⟨m :: rest, (bufLenOf (m :: rest) : Int)⟩ m rest rfl hok hdi hty hp hf
    have hnext : mnl_nlmsg_next ⟨m :: rest, (bufLenOf (m :: rest) : Int)⟩ =
        ⟨rest, (bufLenOf rest : Int)⟩ := by
      simp only [mnl_nlmsg_next]
      rw [bufLenOf_cons]
      congr 1
      push_cast
      omega
    rw [hnext] at hcall
    simp only [List.length_cons, runNext, hcall]
    rw [ih hrest]
    simp

/-- C2: for a buffer holding exactly N concatenated well-formed event
messages (application type, dump flag clear, accepted by the
assembler), N successive nfqueue_next calls return READY with the
parsed packets in arrival order, consuming the buffer, and the (N+1)-th
call returns NOT-READY. -/
theorem claim_C2 (wall mono fuel : Nat) (msgs : List NlMsg) (hf : 1 ≤ fuel)
    (hwf : ∀ m ∈ msgs, WellFormedEventMsg wall mono m) :
    runNext wall mono fuel msgs.length ⟨msgs, (bufLenOf msgs : Int)⟩ =
      (msgs.map (fun m => NextResult.ioReady (nfqueue_parse wall mono m).2), ⟨[], 0⟩) ∧
    nfqueue_next_loop wall mono fuel ⟨[], 0⟩ = some (.ioNotReady, ⟨[], 0⟩) :=
  ⟨runNext_all_ready wall mono fuel hf msgs hwf,
   next_loop_empty wall mono fuel ⟨[], 0⟩ rfl hf⟩

theorem claim_C2_witness :
    (∀ m ∈ [goodMsg, goodMsg2], WellFormedEventMsg 5 6 m) ∧
    runNext 5 6 1 2 ⟨[goodMsg, goodMsg2], (bufLenOf [goodMsg, goodMsg2] : Int)⟩ =
      ([.ioReady (nfqueue_parse 5 6 goodMsg).2,
        .ioReady (nfqueue_parse 5 6 goodMsg2).2], ⟨[], 0⟩) ∧
    nfqueue_next_loop 5 6 1 ⟨[], 0⟩ = some (.ioNotReady, ⟨[], 0⟩) := by
  have hwf : ∀ m ∈ [goodMsg, goodMsg2], WellFormedEventMsg 5 6 m := by decide
  have h := claim_C2 5 6 1 [goodMsg, goodMsg2] (by decide) hwf
  exact ⟨hwf, h.1, h.2⟩

/-! ## C5 — mixed address families within one tuple -/

/-- A successful v4 read leaves the version at its input value (when
the attribute is absent) or at 4. -/
theorem rip4_success (o : Option Attr) (ip : List Nat) (v : Nat)
    (h : (read_ip_addr o AF_INET ip v).1 = true) :
    (o = none ∧ (read_ip_addr o AF_INET ip v).2.2 = v) ∨
    (read_ip_addr o AF_INET ip v).2.2 = 4 := by
  rcases o with _ | a
  · exact Or.inl ⟨rfl, rfl⟩
  · right
    unfold read_ip_addr at h ⊢
    by_cases h0 : v = 0
    · simp [h0, AF_INET, IPV4]
    · by_cases h4 : v = IPV4
      · simp [h0, h4, AF_INET, IPV4]
      · simp [h0, h4] at h

/-- A v6 read of a present attribute succeeds only from version 0 or 6. -/
theorem rip6_pre (a : Attr) (ip : List Nat) (v : Nat)
    (h : (read_ip_addr (some a) AF_INET6 ip v).1 = true) : v = 0 ∨ v = 6 := by
  unfold read_ip_addr at h
  by_cases h0 : v = 0
  · exact Or.inl h0
  · by_cases h6 : v = IPV6
    · exact Or.inr h6
    · have hne : AF_INET6 ≠ AF_INET := by decide
      have : v ≠ IPV6 := h6
      simp [h0, this, hne] at h

/-- The four-read sequence of the CTA_TUPLE_IP section fails whenever
both an IPv4 attribute and an IPv6 attribute are present. -/
theorem readIpSection_mixed (tb3 : Tb) (t : IpTuple)
    (h4 : tbGet tb3 CTA_IP_V4_SRC ≠ none ∨ tbGet tb3 CTA_IP_V4_DST ≠ none)
    (h6 : tbGet tb3 CTA_IP_V6_SRC ≠ none ∨ tbGet tb3 CTA_IP_V6_DST ≠ none) :
    (readIpSection tb3 t).1 = false := by
  cases hb : (readIpSection tb3 t).1
  · rfl
  · exfalso
    simp only [readIpSection, Bool.and_eq_true] at hb
    obtain ⟨⟨⟨s1, s2⟩, s3⟩, s4⟩ := hb
    have hv2 : (read_ip_addr (tbGet tb3 CTA_IP_V4_DST) AF_INET t.dst
        (read_ip_addr (tbGet tb3 CTA_IP_V4_SRC) AF_INET t.src t.ip_version).2.2).2.2 = 4 := by
      rcases h4 with h | h
      · rcases ho1 : tbGet tb3 CTA_IP_V4_SRC with _ | a1
        · exact absurd ho1 h
        · rw [ho1] at s1 s2
          have hv1 : (read_ip_addr (some a1) AF_INET t.src t.ip_version).2.2 = 4 := by
            rcases rip4_success _ _ _ s1 with ⟨hn, _⟩ | h44
            · exact Option.noConfusion hn
            · exact h44
          rw [hv1] at s2 ⊢
          rcases rip4_success _ _ _ s2 with ⟨_, hsame⟩ | h44
          · exact hsame
          · exact h44
      · rcases ho2 : tbGet tb3 CTA_IP_V4_DST with _ | a2
        · exact absurd ho2 h
        · rw [ho2] at s2
          rcases rip4_success _ _ _ s2 with ⟨hn, _⟩ | h44
          · exact Option.noConfusion hn
          · exact h44
    rcases h6 with h | h
    · rcases ho3 : tbGet tb3 CTA_IP_V6_SRC with _ | a3
      · exact absurd ho3 h
      · rw [ho3] at s3
        rw [hv2] at s3
        rcases rip6_pre _ _ _ s3 with h' | h' <;> omega
    · rcases ho4 : tbGet tb3 CTA_IP_V6_DST with _ | a4
      · exact absurd ho4 h
      · rw [ho4] at s4
        rcases ho3 : tbGet tb3 CTA_IP_V6_SRC with _ | a3
        · rw [ho3] at s4
          rw [read_ip_addr_none_ver] at s4
          rw [hv2] at s4
          rcases rip6_pre _ _ _ s4 with h' | h' <;> omega
        · rw [ho3] at s3
          rw [hv2] at s3
          rcases rip6_pre _ _ _ s3 with h' | h' <;> omega

/-- read_addr_tuple fails, from any prior tuple state, when its IP
sub-block carries both address families. -/
theorem read_addr_tuple_mixed (a : Attr) (inner : List Attr) (tb2 : Tb) (ipa : Attr)
    (ipInner : List Attr) (tb3 : Tb)
    (h1 : a.nestedOf = some inner)
    (h2 : runCb parse_tuple_cb inner tbEmpty = some tb2)
    (h3 : tbGet tb2 CTA_TUPLE_IP = some ipa)
    (h4 : ipa.nestedOf = some ipInner)
    (h5 : runCb parse_ip_cb ipInner tbEmpty = some tb3)
    (h6 : tbGet tb3 CTA_IP_V4_SRC ≠ none ∨ tbGet tb3 CTA_IP_V4_DST ≠ none)
    (h7 : tbGet tb3 CTA_IP_V6_SRC ≠ none ∨ tbGet tb3 CTA_IP_V6_DST ≠ none) :
    ∀ t : IpTuple, (read_addr_tuple a t).1 = false := by
  intro t
  unfold read_addr_tuple
  rw [h1]
  simp only []
  rw [h2]
  simp only []
  rw [h3]
  simp only []
  rw [h4]
  simp only []
  rw [h5]
  simp only []
  rw [if_neg (by rw [readIpSection_mixed tb3 t h6 h7]; exact Bool.false_ne_true)]

/-- The conntrack step fails when one of its tuples fails to parse. -/
theorem parseConntrackStep_tuple_fail (tb : Tb) (p : NfPacket) (ct : Attr)
    (ctInner : List Attr) (tb1 : Tb) (tupA : Attr)
    (hct : tbGet tb NFQA_CT = some ct)
    (hcti : ct.nestedOf = some ctInner)
    (hctb : runCb parse_cta_attr_cb ctInner tbEmpty = some tb1)
    (htup : tbGet tb1 CTA_TUPLE_ORIG = some tupA ∨ tbGet tb1 CTA_TUPLE_REPLY = some tupA)
    (hfail : ∀ t, (read_addr_tuple tupA t).1 = false) :
    (parseConntrackStep tb p).1 = false := by
  have hsplit : ∀ y : IpTuple, read_addr_tuple tupA y = (false, (read_addr_tuple tupA y).2) := by
    intro y
    have hy := hfail y
    rcases hq : read_addr_tuple tupA y with ⟨s, t2⟩
    rw [hq] at hy
    simp only at hy
    subst hy
    rfl
  unfold parseConntrackStep
  rw [hct]
  simp only []
  rw [hcti]
  simp only []
  rw [hctb]
  simp only []
  rcases htup with h | h
  · rw [h]
    simp only []
    rw [hsplit]
  · rcases ho : tbGet tb1 CTA_TUPLE_ORIG with _ | a2
    · simp only []
      rw [h]
      simp only []
      rw [hsplit]
    · simp only []
      split
      · rfl
      · rw [h]
        simp only []
        rw [hsplit]

/-- The assembler tail fails when its conntrack step fails. -/
theorem parseTailSteps_ct_fail (tb : Tb) (p2 : NfPacket)
    (h : (parseConntrackStep tb (parseTimestampStep tb p2)).1 = false) :
    (parseTailSteps tb p2).1 = false := by
  unfold parseTailSteps
  rcases hc : parseConntrackStep tb (parseTimestampStep tb p2) with ⟨s, p4⟩
  rw [hc] at h
  simp only at h
  subst h
  simp only [hc]

/-- C5: a conntrack tuple whose IP sub-block carries both an IPv4 and
an IPv6 address attribute fails tuple parsing from any prior tuple
state, and that failure propagates so that assembly of the whole
message fails. -/
theorem claim_C5 (wall mono : Nat) (m : NlMsg) (ct : Attr) (ctInner : List Attr) (tb1 : Tb)
    (tupA : Attr) (tInner : List Attr) (tb2 : Tb) (ipa : Attr) (ipInner : List Attr)
    (tb3 : Tb)
    (hct : nfqaGet m NFQA_CT = some ct)
    (hcti : ct.nestedOf = some ctInner)
    (hctb : runCb parse_cta_attr_cb ctInner tbEmpty = some tb1)
    (htup : tbGet tb1 CTA_TUPLE_ORIG = some tupA ∨ tbGet tb1 CTA_TUPLE_REPLY = some tupA)
    (hti : tupA.nestedOf = some tInner)
    (htb2 : runCb parse_tuple_cb tInner tbEmpty = some tb2)
    (hip : tbGet tb2 CTA_TUPLE_IP = some ipa)
    (hipi : ipa.nestedOf = some ipInner)
    (htb3 : runCb parse_ip_cb ipInner tbEmpty = some tb3)
    (h4 : tbGet tb3 CTA_IP_V4_SRC ≠ none ∨ tbGet tb3 CTA_IP_V4_DST ≠ none)
    (h6 : tbGet tb3 CTA_IP_V6_SRC ≠ none ∨ tbGet tb3 CTA_IP_V6_DST ≠ none) :
    (∀ t : IpTuple, (read_addr_tuple tupA t).1 = false) ∧
    (nfqueue_parse wall mono m).1 = false := by
  have hrt : ∀ t : IpTuple, (read_addr_tuple tupA t).1 = false :=
    read_addr_tuple_mixed tupA tInner tb2 ipa ipInner tb3 hti htb2 hip hipi htb3 h4 h6
  refine ⟨hrt, ?_⟩
  unfold nfqaGet at hct
  unfold nfqueue_parse
  split
  next htb => rw [htb] at hct
  next tb htb =>
    rw [htb] at hct
    simp only at hct
    split
    · rfl
    next ph hph =>
      split
      · rfl
      next pl hpl =>
        split
        · rfl
        next hne =>
          exact parseTailSteps_ct_fail tb _
            (parseConntrackStep_tuple_fail tb _ ct ctInner tb1 tupA hct hcti hctb htup hrt)

theorem claim_C5_witness :
    (read_addr_tuple mixedTupleAttr IpTuple.zero).1 = false ∧
    (nfqueue_parse 0 0 mixedFamilyMsg).1 = false := by
  have h := claim_C5 0 0 mixedFamilyMsg mixedCtAttr [mixedTupleAttr]
    [(CTA_TUPLE_ORIG, mixedTupleAttr)] mixedTupleAttr [mixedIpAttr]
    [(CTA_TUPLE_IP, mixedIpAttr)] mixedIpAttr [v4srcAttr, v6dstAttr]
    [(CTA_IP_V6_DST, v6dstAttr), (CTA_IP_V4_SRC, v4srcAttr)]
    rfl rfl rfl (Or.inl rfl) rfl rfl rfl rfl rfl
    (Or.inl (by rw [show tbGet [(CTA_IP_V6_DST, v6dstAttr), (CTA_IP_V4_SRC, v4srcAttr)]
        CTA_IP_V4_SRC = some v4srcAttr from rfl]; exact Option.some_ne_none _))
    (Or.inr (by rw [show tbGet [(CTA_IP_V6_DST, v6dstAttr), (CTA_IP_V4_SRC, v4srcAttr)]
        CTA_IP_V6_DST = some v6dstAttr from rfl]; exact Option.some_ne_none _))
  exact ⟨h.1 IpTuple.zero, h.2⟩

/-! ## C10 — failure after the payload copy keeps the allocation -/

/-- C10: when assembly fails on a message whose mandatory attributes
are present and whose payload is non-empty (so the failure happened
after the payload copy, e.g. in conntrack or tuple parsing), the out
packet still holds the freshly copied payload: payload non-null and
payload_len non-zero; the error path neither releases nor clears it. -/
theorem claim_C10 (wall mono : Nat) (m : NlMsg) (pa : Attr)
    (hph : nfqaGet m NFQA_PACKET_HDR ≠ none)
    (hpl : nfqaGet m NFQA_PAYLOAD = some pa)
    (hlen : pa.plen ≠ 0)
    (hfail : (nfqueue_parse wall mono m).1 = false) :
    (nfqueue_parse wall mono m).2.payload = some (pa.bytesOf.take pa.plen) ∧
    (nfqueue_parse wall mono m).2.payload_len = pa.plen := by
  unfold nfqaGet at hph hpl
  unfold nfqueue_parse
  split
  next htb => rw [htb] at hpl; exact absurd hpl (by simp)
  next tb htb =>
    rw [htb] at hph hpl
    simp only at hph hpl
    split
    next hph2 => exact absurd hph2 hph
    next ph hph2 =>
      split
      next hpl2 => rw [hpl2] at hpl; exact absurd hpl (by simp)
      next pa2 hpl2 =>
        have hpe : pa2 = pa := by rw [hpl2] at hpl; injection hpl
        subst hpe
        rw [if_neg hlen]
        exact ⟨((parseTailSteps_fields tb _).2.2.1).trans rfl,
               ((parseTailSteps_fields tb _).2.2.2).trans rfl⟩

theorem claim_C10_witness :
    (nfqueue_parse 0 0 badCtMsg).1 = false ∧
    (nfqueue_parse 0 0 badCtMsg).2.payload = some [1, 2, 3, 4] ∧
    (nfqueue_parse 0 0 badCtMsg).2.payload_len = 4 := by
  have hne : nfqaGet badCtMsg NFQA_PACKET_HDR ≠ none := by
    rw [show nfqaGet badCtMsg NFQA_PACKET_HDR = some phAttr from rfl]
    exact Option.some_ne_none _
  have h := claim_C10 0 0 badCtMsg plAttr hne rfl (by decide) rfl
  exact ⟨rfl, h.1, h.2⟩

/-! ## C4 — zero kernel timestamp treated as absent; local clocks always set -/

/-- C4: the two locally captured clock readings are recorded in the
packet in every case, and a kernel timestamp attribute that is absent
or present with both fields zero leaves has_timestamp false and the
timestamp fields zero, identically. -/
theorem claim_C4 (wall mono : Nat) (m : NlMsg) :
    ((nfqueue_parse wall mono m).2.wall_time = wall ∧
     (nfqueue_parse wall mono m).2.mono_time = mono) ∧
    ((nfqaGet m NFQA_TIMESTAMP = none ∨
      ∃ a, nfqaGet m NFQA_TIMESTAMP = some a ∧ getU64BE a.bytesOf = 0 ∧
           getU64BE (a.bytesOf.drop 8) = 0) →
     (nfqueue_parse wall mono m).2.has_timestamp = false ∧
     (nfqueue_parse wall mono m).2.timestamp_sec = 0 ∧
     (nfqueue_parse wall mono m).2.timestamp_usec = 0) := by
  unfold nfqueue_parse
  split
  · exact ⟨⟨rfl, rfl⟩, fun _ => ⟨rfl, rfl, rfl⟩⟩
  next tb htb =>
    split
    · exact ⟨⟨rfl, rfl⟩, fun _ => ⟨rfl, rfl, rfl⟩⟩
    next ph hph =>
      split
      · exact ⟨⟨rfl, rfl⟩, fun _ => ⟨rfl, rfl, rfl⟩⟩
      next pl hpl =>
        split
        · exact ⟨⟨rfl, rfl⟩, fun _ => ⟨rfl, rfl, rfl⟩⟩
        next hne =>
          constructor
          · exact ⟨((parseTailSteps_fields tb _).1).trans rfl,
                   ((parseTailSteps_fields tb _).2.1).trans rfl⟩
          · intro h
            unfold nfqaGet at h
            rw [htb] at h
            simp only at h
            obtain ⟨t1, t2, t3⟩ := parseTailSteps_ts_zero tb _ h
            exact ⟨t1.trans rfl, t2.trans rfl, t3.trans rfl⟩

theorem claim_C4_witness :
    (nfqueue_parse 11 22 tsZeroMsg).2.wall_time = 11 ∧
    (nfqueue_parse 11 22 tsZeroMsg).2.mono_time = 22 ∧
    (nfqueue_parse 11 22 tsZeroMsg).2.has_timestamp = false ∧
    (nfqueue_parse 11 22 tsZeroMsg).2.timestamp_sec = 0 ∧
    (nfqueue_parse 11 22 tsZeroMsg).2.timestamp_usec = 0 := by
  have h := claim_C4 11 22 tsZeroMsg
  have h2 := h.2 (Or.inr ⟨tsZeroAttr, rfl, rfl, rfl⟩)
  exact ⟨h.1.1, h.1.2, h2.1, h2.2.1, h2.2.2⟩

theorem claim_C6_witness :
    nfqueue_send_command 24 1 2 1 [0, 0, 0, 0] = .bufTooShort ∧
    nfqueue_set_params 31 1 2 65535 0 1 = .bufTooShort ∧
    nfqueue_send_verdict_connmark 43 1 7 1 0 = .bufTooShort := by
  have h := claim_C6 24 1 2 1 65535 0 0 1 7 1 [0, 0, 0, 0] 0
  have h2 := claim_C6 31 1 2 1 65535 0 0 1 7 1 [0, 0, 0, 0] 0
  have h3 := claim_C6 43 1 2 1 65535 0 0 1 7 1 [0, 0, 0, 0] 0
  exact ⟨h.1 (by decide), h2.2.1 (by decide), h3.2.2 (by decide)⟩

end Nfq
